import Mathlib

/-!
Shallow embedding of `src/pretix/eventyay_common/views/dashboards.py` and
`src/pretix/eventyay_common/context.py` from the eventyay-tickets repository,
together with theorems about widget ranking, event-query annotation,
dashboard bucket caps, and template-context enrichment.

Conventions: Python dicts with optional keys become structures with
`Option` fields; database `NULL` becomes `none`; timestamps are integers;
queryset operations become list operations.  Python's `sorted` is a stable
sort, so it is modelled by `List.insertionSort`, which is stable.
-/

/-- A dashboard widget descriptor.  On the Python side this is a `dict`;
optional fields model keys that may be absent (read via `dict.get` with a
default). -/
structure Widget where
  priority : Option Int := none
  display_size : Option String := none
  content : String := ""
  lazy : Option String := none
  container_class : Option String := none
  deriving DecidableEq, Repr

/-- The `mapping` dict inside `rearrange` in `dashboards.py`: display size
to numeric tier; `dict.get(..., 1)` falls back to `1` for unknown sizes. -/
def mapping (s : String) : Option Nat :=
  if s = "small" then some 1
  else if s = "big" then some 2
  else if s = "full" then some 3
  else none

/-- The `sort_key` closure inside `rearrange`:
`(element.get('priority', 1), mapping.get(element.get('display_size', 'small'), 1))`. -/
def sort_key (element : Widget) : Int × Nat :=
  (element.priority.getD 1, (mapping (element.display_size.getD "small")).getD 1)

/-- Python tuple comparison `p <= q` on pairs, which is lexicographic. -/
def tupleLe (p q : Int × Nat) : Prop :=
  p.1 < q.1 ∨ (p.1 = q.1 ∧ p.2 ≤ q.2)

instance (p q : Int × Nat) : Decidable (tupleLe p q) := by
  unfold tupleLe; exact inferInstance

/-- The ordering realised by `sorted(widgets, key=sort_key, reverse=True)`:
`a` may precede `b` exactly when `sort_key b <= sort_key a` in Python tuple
order (descending). -/
def widgetGe (a b : Widget) : Prop := tupleLe (sort_key b) (sort_key a)

instance : DecidableRel widgetGe := fun a b => by
  unfold widgetGe; exact inferInstance

instance : IsTotal Widget widgetGe := ⟨fun a b => by
  unfold widgetGe tupleLe; omega⟩

instance : IsTrans Widget widgetGe := ⟨fun a b c hab hbc => by
  unfold widgetGe tupleLe at *; omega⟩

/-- `rearrange` from `dashboards.py`: sort widget boxes according to
priority.  Python's `sorted(widgets, key=sort_key, reverse=True)` is the
stable sort by the reversed key comparison. -/
def rearrange (widgets : List Widget) : List Widget :=
  widgets.insertionSort widgetGe

example : rearrange [{ priority := some 1 }, { priority := some 5 }] =
    [{ priority := some 5 }, { priority := some 1 }] := by decide

example : rearrange [{ display_size := some "big" }, { display_size := some "full" },
      { display_size := some "weird" }] =
    [{ display_size := some "full" }, { display_size := some "big" },
      { display_size := some "weird" }] := by decide

/-- C1: `rearrange` returns the list ordered by descending
`(priority, size_tier)`, where the tier maps `small` to 1, `big` to 2,
`full` to 3, a missing `priority` defaults to 1, a missing `display_size`
defaults to `small`, and any unknown `display_size` falls back to tier 1.
The operation is a total function on descriptor lists (no error
conditions). -/
theorem rearrange_sorted_desc (l : List Widget) :
    ((rearrange l).Pairwise fun a b => tupleLe (sort_key b) (sort_key a)) ∧
    (∀ e : Widget, sort_key e =
      (e.priority.getD 1,
        if e.display_size.getD "small" = "small" then 1
        else if e.display_size.getD "small" = "big" then 2
        else if e.display_size.getD "small" = "full" then 3
        else 1)) := by
  constructor
  · exact List.sorted_insertionSort widgetGe l
  · intro e
    unfold sort_key mapping
    split_ifs <;> rfl

/-- C2: in the output of `rearrange`, any element with strictly larger
priority comes at an earlier position, and the elements sharing any given
sort key appear in their original relative order (stability). -/
theorem rearrange_stable (l : List Widget) :
    (∀ i j : Fin (rearrange l).length,
      (sort_key ((rearrange l).get i)).1 > (sort_key ((rearrange l).get j)).1 →
        i < j) ∧
    (∀ k : Int × Nat,
      (rearrange l).filter (fun e => sort_key e == k) =
        l.filter (fun e => sort_key e == k)) := by
  have hs : (rearrange l).Pairwise widgetGe := List.sorted_insertionSort widgetGe l
  constructor
  · intro i j hgt
    rcases lt_trichotomy i j with h | h | h
    · exact h
    · subst h; exact absurd hgt (lt_irrefl _)
    · exfalso
      have hji := List.pairwise_iff_get.mp hs j i h
      unfold widgetGe tupleLe at hji
      omega
  · intro k
    have hpair : (l.filter (fun e => sort_key e == k)).Pairwise widgetGe := by
      apply List.pairwise_of_forall_mem_list
      intro a ha b hb
      have ea : sort_key a = k := by
        simpa using (List.mem_filter.mp ha).2
      have eb : sort_key b = k := by
        simpa using (List.mem_filter.mp hb).2
      unfold widgetGe tupleLe
      rw [ea, eb]
      exact Or.inr ⟨rfl, le_refl _⟩
    have hsub : (l.filter (fun e => sort_key e == k)).Sublist (rearrange l) :=
      List.sublist_insertionSort hpair (List.filter_sublist l)
    have hsub2 : (l.filter (fun e => sort_key e == k)).Sublist
        ((rearrange l).filter (fun e => sort_key e == k)) := by
      have h2 := hsub.filter (fun e => sort_key e == k)
      simpa only [List.filter_filter, Bool.and_self] using h2
    have hlen : ((rearrange l).filter (fun e => sort_key e == k)).length =
        (l.filter (fun e => sort_key e == k)).length :=
      ((List.perm_insertionSort widgetGe l).filter _).length_eq
    exact (hsub2.eq_of_length hlen.symm).symm

/-- Concrete check for C2: on `[priority 1, priority 5]` the higher-priority
widget ends up strictly earlier. -/
theorem rearrange_stable_witness :
    ((sort_key ((rearrange [{ priority := some 1 }, { priority := some 5 }]).get
        ⟨0, by decide⟩)).1 >
      (sort_key ((rearrange [{ priority := some 1 }, { priority := some 5 }]).get
        ⟨1, by decide⟩)).1) ∧
    (⟨0, by decide⟩ : Fin (rearrange [{ priority := some 1 },
        { priority := some 5 }]).length) < ⟨1, by decide⟩ :=
  ⟨by decide, (rearrange_stable [{ priority := some 1 }, { priority := some 5 }]).1
    ⟨0, by decide⟩ ⟨1, by decide⟩ (by decide)⟩

/-- C10: `rearrange` only reorders: its output is a permutation of its
input (same records, same multiplicities, nothing added, dropped or
modified). -/
theorem rearrange_perm (l : List Widget) : (rearrange l).Perm l :=
  List.perm_insertionSort widgetGe l

/-- A row of the `SubEvent` table as seen by the aggregates in
`annotated_event_query`: `date_from` is non-nullable, `date_to` nullable. -/
structure SubEventRow where
  date_from : Int
  date_to : Option Int := none
  deriving DecidableEq, Repr

/-- A row of the `Event` table with the fields read by `dashboards.py`.
`date_from` and `date_to` are nullable columns; `subevents` is the reverse
relation aggregated over by `annotated_event_query`. -/
structure DbEvent where
  pk : Int
  date_from : Option Int := none
  date_to : Option Int := none
  has_subevents : Bool := false
  subevents : List SubEventRow := []
  deriving DecidableEq, Repr

/-- SQL `MAX` aggregate over a nullable column: `NULL`s are ignored and the
aggregate of an empty set is `NULL`. -/
def sqlMax (l : List (Option Int)) : Option Int := (l.filterMap id).max?

/-- SQL `MIN` aggregate over a nullable column. -/
def sqlMin (l : List (Option Int)) : Option Int := (l.filterMap id).min?

/-- PostgreSQL `GREATEST` of two values (Django's `Greatest`): `NULL`
arguments are ignored; `NULL` only when both are `NULL`. -/
def sqlGreatest (a b : Option Int) : Option Int :=
  match a, b with
  | none, b => b
  | some x, none => some x
  | some x, some y => some (max x y)

/-- SQL `COALESCE` of two values: the first when non-`NULL`, else the
second. -/
def coalesce2 (a b : Option Int) : Option Int :=
  match a with
  | some x => some x
  | none => b

/-- An event annotated by `annotated_event_query` (the aggregate
annotations added in the lazy path). -/
structure AnnEvent where
  ev : DbEvent
  min_from : Option Int
  max_from : Option Int
  max_to : Option Int
  max_fromto : Option Int
  order_to : Option Int
  deriving DecidableEq, Repr

/-- The annotation step of `annotated_event_query` in `dashboards.py`:
`min_from`/`max_from`/`max_to` aggregate the sub-occurrences,
`max_fromto = Greatest(Max(date_to), Max(date_from))`, and
`order_to = Coalesce(max_fromto, max_to, max_from, date_to, date_from)`. -/
def annotated_event_query (e : DbEvent) : AnnEvent :=
  let min_from := sqlMin (e.subevents.map fun s => some s.date_from)
  let max_from := sqlMax (e.subevents.map fun s => some s.date_from)
  let max_to := sqlMax (e.subevents.map fun s => s.date_to)
  let max_fromto := sqlGreatest max_to max_from
  { ev := e
    min_from := min_from
    max_from := max_from
    max_to := max_to
    max_fromto := max_fromto
    order_to := coalesce2 max_fromto (coalesce2 max_to (coalesce2 max_from
      (coalesce2 e.date_to e.date_from))) }

/-- SQL comparison `col >= t` on a nullable column: `NULL` compares as
unknown, so the row is not matched. -/
def sqlGe (o : Option Int) (t : Int) : Bool :=
  match o with
  | some d => t ≤ d
  | none => false

/-- SQL comparison `col < t` on a nullable column. -/
def sqlLt (o : Option Int) (t : Int) : Bool :=
  match o with
  | some d => d < t
  | none => false

/-- The `upcoming` queryset filter in `organiser_dashboard` /
`user_index_widgets_lazy`: no sub-occurrences, and (`date_to` is `NULL` and
`date_from >= now()`) or (`date_to` is not `NULL` and `date_to >= now()`). -/
def upcomingFilter (t : Int) (e : AnnEvent) : Bool :=
  !e.ev.has_subevents &&
    ((e.ev.date_to.isNone && sqlGe e.ev.date_from t) ||
     (e.ev.date_to.isSome && sqlGe e.ev.date_to t))

/-- The `past` queryset filter: no sub-occurrences, and the effective end
(`date_to`, or `date_from` if `date_to` is `NULL`) lies before `now()`. -/
def pastFilter (t : Int) (e : AnnEvent) : Bool :=
  !e.ev.has_subevents &&
    ((e.ev.date_to.isNone && sqlLt e.ev.date_from t) ||
     (e.ev.date_to.isSome && sqlLt e.ev.date_to t))

/-- Ascending SQL order on a nullable column (PostgreSQL default:
`NULLS LAST`): `a` strictly precedes `b`. -/
def optAscLt (a b : Option Int) : Prop :=
  match a, b with
  | some x, some y => x < y
  | some _, none => True
  | none, _ => False

instance (a b : Option Int) : Decidable (optAscLt a b) :=
  match a, b with
  | some x, some y => inferInstanceAs (Decidable (x < y))
  | some _, none => inferInstanceAs (Decidable True)
  | none, some _ => inferInstanceAs (Decidable False)
  | none, none => inferInstanceAs (Decidable False)

/-- Descending SQL order on a nullable column (PostgreSQL default for
`DESC`: `NULLS FIRST`): `a` strictly precedes `b`. -/
def optDescLt (a b : Option Int) : Prop :=
  match a, b with
  | some x, some y => y < x
  | none, some _ => True
  | _, none => False

instance (a b : Option Int) : Decidable (optDescLt a b) :=
  match a, b with
  | some x, some y => inferInstanceAs (Decidable (y < x))
  | none, some _ => inferInstanceAs (Decidable True)
  | some _, none => inferInstanceAs (Decidable False)
  | none, none => inferInstanceAs (Decidable False)

/-- `order_by('date_from', 'order_to', 'pk')` on the upcoming bucket:
`a` may precede `b`. -/
def upcomingOrd (a b : AnnEvent) : Prop :=
  optAscLt a.ev.date_from b.ev.date_from ∨
    (a.ev.date_from = b.ev.date_from ∧
      (optAscLt a.order_to b.order_to ∨
        (a.order_to = b.order_to ∧ a.ev.pk ≤ b.ev.pk)))

instance : DecidableRel upcomingOrd := fun a b => by
  unfold upcomingOrd; exact inferInstance

/-- `order_by('-order_to', 'pk')` on the past and series buckets:
`a` may precede `b`. -/
def recentOrd (a b : AnnEvent) : Prop :=
  optDescLt a.order_to b.order_to ∨ (a.order_to = b.order_to ∧ a.ev.pk ≤ b.ev.pk)

instance : DecidableRel recentOrd := fun a b => by
  unfold recentOrd; exact inferInstance

/-- The upcoming-events queryset of `organiser_dashboard` /
`user_index_widgets_lazy`: annotate, filter, order. -/
def upcomingQs (t : Int) (events : List DbEvent) : List AnnEvent :=
  ((events.map annotated_event_query).filter (upcomingFilter t)).insertionSort upcomingOrd

/-- The past-events queryset. -/
def pastQs (t : Int) (events : List DbEvent) : List AnnEvent :=
  ((events.map annotated_event_query).filter (pastFilter t)).insertionSort recentOrd

/-- The series queryset: `filter(has_subevents=True)`. -/
def seriesQs (events : List DbEvent) : List AnnEvent :=
  ((events.map annotated_event_query).filter (fun e => e.ev.has_subevents)).insertionSort recentOrd

/-- `widgets_for_event_qs` from `dashboards.py`: truncate the queryset to
`nmax` rows and build one widget per event.  The rendered markup of the
non-lazy branch (template formatting, date ranges, status labels) is
abstracted by the `render` argument. -/
def widgets_for_event_qs (render : AnnEvent → String) (qs : List AnnEvent)
    (nmax : Nat) (lazy : Bool) : List Widget :=
  (qs.take nmax).map fun event =>
    { content := if lazy then "" else render event
      display_size := some "small"
      lazy := some ("event-" ++ toString event.ev.pk)
      priority := some 100
      container_class := some "widget-container widget-container-event" }

/-- The three event buckets of the `organiser_dashboard` context, with the
widget list and `can_create_event` flag. -/
structure OrganiserDashboardCtx where
  widgets : List Widget
  can_create_event : Bool
  upcoming : List Widget
  past : List Widget
  series : List Widget
  deriving DecidableEq, Repr

/-- The context assembled by `organiser_dashboard` in `dashboards.py`
(collected plugin widgets and the user's create-permission are inputs; the
static component links are omitted). -/
def organiser_dashboard (collected : List Widget) (canCreate : Bool)
    (render : AnnEvent → String) (t : Int) (events : List DbEvent) :
    OrganiserDashboardCtx :=
  { widgets := rearrange collected
    can_create_event := canCreate
    upcoming := widgets_for_event_qs render (upcomingQs t events) 7 true
    past := widgets_for_event_qs render (pastQs t events) 8 true
    series := widgets_for_event_qs render (seriesQs events) 8 true }

/-- The widget list returned by `user_index_widgets_lazy` in
`dashboards.py` (the JSON body wraps exactly this list). -/
def user_index_widgets_lazy (render : AnnEvent → String) (t : Int)
    (events : List DbEvent) : List Widget :=
  widgets_for_event_qs render (upcomingQs t events) 7 false ++
    (widgets_for_event_qs render (pastQs t events) 8 false ++
      widgets_for_event_qs render (seriesQs events) 8 false)

/-- Helper: the four-deep `coalesce2` chain used for `order_to` picks the
first non-`NULL` entry of the chain. -/
theorem coalesce_chain_head (a b c d e : Option Int) :
    coalesce2 a (coalesce2 b (coalesce2 c (coalesce2 d e))) =
      ([a, b, c, d, e].filterMap id).head? := by
  cases a <;> cases b <;> cases c <;> cases d <;> cases e <;> rfl

/-- An event record with only a start date: no sub-occurrences, no end. -/
def evOnlyStart : DbEvent := { pk := 1, date_from := some 100 }

/-- C4: the `order_to` annotation is the first non-null value of the chain
(greatest of max sub-occurrence end/start, max sub-occurrence end, max
sub-occurrence start, own end date, own start date); in particular an event
with only a start date gets `order_to` equal to that start date. -/
theorem order_to_coalesce (e : DbEvent) :
    ((annotated_event_query e).order_to =
      ([(annotated_event_query e).max_fromto, (annotated_event_query e).max_to,
        (annotated_event_query e).max_from, e.date_to, e.date_from].filterMap
          id).head?) ∧
    (e.subevents = [] → e.date_to = none →
      (annotated_event_query e).order_to = e.date_from) := by
  constructor
  · exact coalesce_chain_head _ _ _ _ _
  · intro hsub hto
    simp [annotated_event_query, sqlMax, sqlMin, sqlGreatest, coalesce2, hsub, hto]

/-- Concrete check for C4: an event with start 100, no end date and no
sub-occurrences has `order_to = 100`. -/
theorem order_to_coalesce_witness :
    (evOnlyStart.subevents = [] ∧ evOnlyStart.date_to = none) ∧
      (annotated_event_query evOnlyStart).order_to = evOnlyStart.date_from :=
  ⟨⟨rfl, rfl⟩, (order_to_coalesce evOnlyStart).2 rfl rfl⟩

/-- The example events of the spec: start 2024-01-10 without end date, and
start 2024-02-01, at current time 2024-01-05 (dates encoded as yyyymmdd). -/
def evJan10 : DbEvent := { pk := 1, date_from := some 20240110 }

/-- The later example event (start 2024-02-01). -/
def evFeb01 : DbEvent := { pk := 2, date_from := some 20240201 }

/-- C5: over events without sub-occurrences and with a start date, the
upcoming and past filters form an exhaustive, disjoint partition; and the
spec's example (start 2024-01-10, no end, now 2024-01-05) lands in the
upcoming bucket ordered before an event starting 2024-02-01. -/
theorem upcoming_past_partition :
    (∀ (t : Int) (e : AnnEvent), e.ev.has_subevents = false →
      e.ev.date_from.isSome = true →
      (upcomingFilter t e = true ∧ pastFilter t e = false) ∨
      (upcomingFilter t e = false ∧ pastFilter t e = true)) ∧
    (upcomingFilter 20240105 (annotated_event_query evJan10) = true ∧
      upcomingQs 20240105 [evFeb01, evJan10] =
        [annotated_event_query evJan10, annotated_event_query evFeb01]) := by
  constructor
  · intro t e hsub hfrom
    cases hto : e.ev.date_to with
    | none =>
      cases hfr : e.ev.date_from with
      | none => rw [hfr] at hfrom; simp at hfrom
      | some d =>
        by_cases h : t ≤ d
        · left; simp [upcomingFilter, pastFilter, sqlGe, sqlLt, hsub, hto, hfr, h]
          try omega
        · right; simp [upcomingFilter, pastFilter, sqlGe, sqlLt, hsub, hto, hfr, h]
          try omega
    | some d =>
      by_cases h : t ≤ d
      · left; simp [upcomingFilter, pastFilter, sqlGe, sqlLt, hsub, hto, h]
        try omega
      · right; simp [upcomingFilter, pastFilter, sqlGe, sqlLt, hsub, hto, h]
        try omega
  · exact ⟨by decide, by decide⟩

/-- Concrete check for C5: at time 0 an event with start 5 and no end date
satisfies exactly the upcoming side of the partition. -/
theorem upcoming_past_partition_witness :
    ((annotated_event_query evOnlyStart).ev.has_subevents = false ∧
      (annotated_event_query evOnlyStart).ev.date_from.isSome = true) ∧
    ((upcomingFilter 0 (annotated_event_query evOnlyStart) = true ∧
        pastFilter 0 (annotated_event_query evOnlyStart) = false) ∨
      (upcomingFilter 0 (annotated_event_query evOnlyStart) = false ∧
        pastFilter 0 (annotated_event_query evOnlyStart) = true)) :=
  ⟨⟨rfl, rfl⟩, upcoming_past_partition.1 0 (annotated_event_query evOnlyStart) rfl rfl⟩

/-- C6: `widgets_for_event_qs` emits at most `nmax` widgets for any
queryset, and both dashboard assemblies cap the upcoming bucket at 7 and
the past and series buckets at 8. -/
theorem dashboard_bucket_caps (render : AnnEvent → String) (qs : List AnnEvent)
    (nmax : Nat) (lz : Bool) (collected : List Widget) (canCreate : Bool)
    (t : Int) (events : List DbEvent) :
    (widgets_for_event_qs render qs nmax lz).length ≤ nmax ∧
    ((organiser_dashboard collected canCreate render t events).upcoming.length ≤ 7 ∧
      (organiser_dashboard collected canCreate render t events).past.length ≤ 8 ∧
      (organiser_dashboard collected canCreate render t events).series.length ≤ 8) ∧
    (user_index_widgets_lazy render t events).length ≤ 7 + (8 + 8) := by
  have hgen : ∀ (q : List AnnEvent) (n : Nat) (b : Bool),
      (widgets_for_event_qs render q n b).length ≤ n := by
    intro q n b
    simp [widgets_for_event_qs]
  refine ⟨hgen qs nmax lz, ⟨hgen _ 7 _, hgen _ 8 _, hgen _ 8 _⟩, ?_⟩
  have h1 := hgen (upcomingQs t events) 7 false
  have h2 := hgen (pastQs t events) 8 false
  have h3 := hgen (seriesQs events) 8 false
  simp only [user_index_widgets_lazy, List.length_append]
  omega

/-- The `request.event` object as read by `_default_context` in
`context.py`: shop-live and test-mode flags, the cached and the actual
answer to "are there test-mode orders", the sub-occurrence primary keys,
the settings consulted for the talk flag, and the results of the external
`is_video_enabled` / `get_event_domain` helpers. -/
structure Event where
  slug : String := ""
  pk : Int := 0
  live : Bool := false
  testmode : Bool := false
  hasTestmodeOrders : Bool := false
  cacheComplain : Option Bool := none
  subeventPks : List Int := []
  createForBoth : Bool := false
  talkSchedulePublicSome : Bool := false
  videoEnabled : Bool := false
  hasDomain : Bool := false
  deriving DecidableEq, Repr

/-- The parts of the HTTP request and ambient settings read by
`_default_context`.  `pathResolves` abstracts `resolve(request.path_info)`
succeeding, `urlName` its result. -/
structure Request where
  pathResolves : Bool := true
  urlName : String := ""
  path : String := "/common/"
  scriptRoot : String := "/"
  debug : Bool := false
  talkHostname : String := ""
  adminAuditComments : Bool := false
  isAuthenticated : Bool := false
  isStaff : Bool := false
  hasActiveStaffSession : Bool := false
  event : Option Event := none
  organizerPresent : Bool := false
  canViewOrders : Bool := false
  subeventParam : String := ""
  childSess : Option String := none
  sessionKey : String := ""
  deriving DecidableEq, Repr

/-- A navigation entry set placed under the `nav_items` key. -/
inductive NavItems where
  | globalNav
  | eventNav
  deriving DecidableEq, Repr

/-- The queryset placed under `staff_need_to_explain`. -/
inductive StaffQS where
  | pendingExplain
  | emptyQs
  deriving DecidableEq, Repr

/-- A symbolic `urljoin(base, rel)` value. -/
structure UrlJoin where
  base : String
  rel : String
  deriving DecidableEq, Repr

/-- The template context dict built by `_default_context`.  Every field
models one dict key; `none` means the key is absent. -/
structure Ctx where
  url_name : Option String := none
  settings : Option Unit := none
  django_settings : Option Unit := none
  DEBUG : Option Bool := none
  talk_hostname : Option String := none
  global_settings : Option Unit := none
  nav_items : Option NavItems := none
  staff_session : Option Bool := none
  staff_need_to_explain : Option StaffQS := none
  talk_edit_url : Option UrlJoin := none
  is_video_enabled : Option Bool := none
  is_talk_event_created : Option Bool := none
  has_domain : Option Bool := none
  complain_testmode_orders : Option Bool := none
  new_session : Option String := none
  selected_subevents : Option (List Int) := none
  deriving DecidableEq, Repr

/-- The observable outcome of `_default_context`: the returned context,
the log lines emitted, the event-cache write (with its 30-second
time-to-live elided), and the two session writes. -/
structure ContextResult where
  ctx : Ctx
  log : List String := []
  cacheWrite : Option Bool := none
  childSessionWrite : Option String := none
  sessionEventAccess : Bool := false
  deriving DecidableEq, Repr

/-- Models `str.startswith` over the character list (the `Substring`-based
library version does not reduce in the kernel). -/
def strStartsWith (s p : String) : Bool :=
  List.isPrefixOf p.toList s.toList

/-- Models `str.strip`: drop leading and trailing whitespace. -/
def pyStrip (s : String) : List Char :=
  ((s.toList.dropWhile Char.isWhitespace).reverse.dropWhile Char.isWhitespace).reverse

/-- Decimal digit run to a number; `none` on an empty run or a non-digit. -/
def digitsVal (cs : List Char) : Option Nat :=
  match cs with
  | [] => none
  | _ =>
    cs.foldl
      (fun acc c => acc.bind fun n =>
        if c.isDigit then some (10 * n + (c.toNat - 48)) else none)
      (some 0)

/-- Models Python `int(str)` on a stripped string: an optional sign
followed by decimal digits (digit grouping with underscores and non-ASCII
digits are not modelled); `none` models `ValueError`. -/
def pyInt (cs : List Char) : Option Int :=
  match cs with
  | '-' :: rest => (digitsVal rest).map fun n => -(n : Int)
  | '+' :: rest => (digitsVal rest).map fun n => (n : Int)
  | _ => (digitsVal cs).map fun n => (n : Int)

example : pyInt (pyStrip " 12 ") = some 12 := by decide
example : pyInt (pyStrip "-3") = some (-3) := by decide
example : pyInt (pyStrip "abc") = none := by decide
example : pyInt (pyStrip "") = none := by decide

/-- `_default_context` from `context.py`.  Route-resolution failure or a
path outside the `common` area short-circuits to an empty context; the
authenticated / event / organizer branches add their keys exactly as the
Python function does; the three side effects (cache write, child-session
write, `event_access` flag) are returned alongside the context. -/
def _default_context (req : Request) : ContextResult :=
  if req.pathResolves = false then { ctx := {} }
  else if strStartsWith req.path (req.scriptRoot ++ "common") = false then { ctx := {} }
  else
    let ctx : Ctx :=
      { url_name := some req.urlName
        settings := some ()
        django_settings := some ()
        DEBUG := some req.debug
        talk_hostname := some req.talkHostname
        global_settings := some () }
    if req.isAuthenticated = false then { ctx := ctx }
    else
      let ctx := { ctx with
        nav_items := some NavItems.globalNav
        staff_session := some req.hasActiveStaffSession
        staff_need_to_explain := some
          (if req.isStaff && req.adminAuditComments then StaffQS.pendingExplain
           else StaffQS.emptyQs) }
      match req.event with
      | none => { ctx := ctx }
      | some ev =>
        let ctx := { ctx with
          talk_edit_url := some ⟨req.talkHostname, "/orga/event/" ++ ev.slug⟩
          is_video_enabled := some ev.videoEnabled
          is_talk_event_created := some false }
        let ctx :=
          if ev.createForBoth || ev.talkSchedulePublicSome then
            { ctx with is_talk_event_created := some true }
          else ctx
        if req.organizerPresent = false then { ctx := ctx }
        else
          let ctx := { ctx with
            nav_items := some NavItems.eventNav
            has_domain := some ev.hasDomain }
          let testmodeStep : Ctx × Option Bool :=
            if ev.testmode = false then
              match ev.cacheComplain with
              | some c =>
                ({ ctx with
                    complain_testmode_orders := some (c && req.canViewOrders) },
                  none)
              | none =>
                let c := ev.hasTestmodeOrders
                ({ ctx with
                    complain_testmode_orders := some (c && req.canViewOrders) },
                  some c)
            else ({ ctx with complain_testmode_orders := some false }, none)
          let ctx := testmodeStep.1
          let sessionStep : Ctx × Option String × Bool :=
            if !ev.live && ev.hasDomain then
              match req.childSess with
              | none => (ctx, some req.sessionKey, true)
              | some cs => ({ ctx with new_session := some cs }, none, true)
            else (ctx, none, false)
          let ctx := sessionStep.1
          let subeventStep : Ctx × List String :=
            if req.subeventParam = "" then (ctx, [])
            else
              let subevent_id := pyStrip req.subeventParam
              match pyInt subevent_id with
              | some pk =>
                ({ ctx with
                    selected_subevents := some (ev.subeventPks.filter fun q => q == pk) },
                  [])
              | none => (ctx, ["Error parsing subevent ID"])
          { ctx := subeventStep.1
            log := subeventStep.2
            cacheWrite := testmodeStep.2
            childSessionWrite := sessionStep.2.1
            sessionEventAccess := sessionStep.2.2 }

/-- A request whose path fails route resolution. -/
def reqNoRoute : Request := { pathResolves := false }

/-- C8: when route resolution fails, or the path lies outside the `common`
area, `_default_context` returns the empty context with no log lines, no
cache write and no session writes (it short-circuits all other
computation), rather than raising. -/
theorem default_context_short_circuit (req : Request)
    (h : req.pathResolves = false ∨
      strStartsWith req.path (req.scriptRoot ++ "common") = false) :
    _default_context req = { ctx := {} } := by
  unfold _default_context
  rcases h with h | h
  · simp [h]
  · cases hp : req.pathResolves
    · simp
    · simp [h, hp]

/-- Concrete check for C8: a request that does not resolve yields the empty
context. -/
theorem default_context_short_circuit_witness :
    reqNoRoute.pathResolves = false ∧
      _default_context reqNoRoute = { ctx := {} } :=
  ⟨rfl, default_context_short_circuit reqNoRoute (Or.inl rfl)⟩

/-- The guard chain under which `_default_context` reaches the
sub-occurrence query-parameter handling: resolvable path inside the
`common` area, authenticated user, and both `request.event` and
`request.organizer` present. -/
def reachesSubeventBlock (req : Request) : Prop :=
  req.pathResolves = true ∧
  strStartsWith req.path (req.scriptRoot ++ "common") = true ∧
  req.isAuthenticated = true ∧
  req.event.isSome = true ∧
  req.organizerPresent = true

instance (req : Request) : Decidable (reachesSubeventBlock req) := by
  unfold reachesSubeventBlock; exact inferInstance

/-- C7: a non-empty `subevent` query parameter that does not parse as an
integer never raises (the embedding is a total function), leaves the
context exactly as it would be without the parameter — in particular the
`selected_subevents` key is absent — and, whenever the parameter handling
is actually reached, the parse failure is logged. -/
theorem malformed_subevent_param (req : Request)
    (h1 : req.subeventParam ≠ "")
    (h2 : pyInt (pyStrip req.subeventParam) = none) :
    (_default_context req).ctx.selected_subevents = none ∧
    (_default_context req).ctx =
      (_default_context { req with subeventParam := "" }).ctx ∧
    (reachesSubeventBlock req →
      (_default_context req).log = ["Error parsing subevent ID"]) := by
  rcases req with ⟨pr, un, pa, sr, db, th, aac, au, st, ss, evo, org, cvo, sp, cs, sk⟩
  simp only [] at h1 h2
  unfold _default_context reachesSubeventBlock
  cases pr
  · simp
  · cases hsw : strStartsWith pa (sr ++ "common")
    · simp
    · cases au
      · simp
      · rcases evo with _ | ⟨slug, pk, live, tm, hto, cc, spks, cfb, tsp, ve, hd⟩
        · simp
        · cases org
          · cases cfb <;> cases tsp <;> simp
          · cases cfb <;> cases tsp <;> cases tm <;> rcases cc with _ | c <;>
              cases live <;> cases hd <;> rcases cs with _ | csv <;>
              simp [h1, h2]

/-- A request that reaches the sub-occurrence handling with a malformed
`subevent` parameter. -/
def reqBadParam : Request :=
  { pathResolves := true
    path := "/common/event/x"
    scriptRoot := "/"
    isAuthenticated := true
    event := some {}
    organizerPresent := true
    subeventParam := "abc" }

/-- Concrete check for C7: `subevent=abc` on a request that reaches the
parameter handling. -/
theorem malformed_subevent_param_witness :
    (reqBadParam.subeventParam ≠ "" ∧
      pyInt (pyStrip reqBadParam.subeventParam) = none ∧
      reachesSubeventBlock reqBadParam) ∧
    ((_default_context reqBadParam).ctx.selected_subevents = none ∧
      (_default_context reqBadParam).ctx =
        (_default_context { reqBadParam with subeventParam := "" }).ctx ∧
      (reachesSubeventBlock reqBadParam →
        (_default_context reqBadParam).log = ["Error parsing subevent ID"])) :=
  ⟨⟨by decide, by decide, by decide⟩,
    malformed_subevent_param reqBadParam (by decide) (by decide)⟩

/-- A live, non-test-mode event whose cache records that test-mode orders
exist. -/
def evLiveCached : Event :=
  { live := true, testmode := false, cacheComplain := some true }

/-- A request for `evLiveCached` by a user who may view orders. -/
def reqLiveCached : Request :=
  { pathResolves := true
    path := "/common/event/x"
    scriptRoot := "/"
    isAuthenticated := true
    event := some evLiveCached
    organizerPresent := true
    canViewOrders := true }

/-- Counterexample to C3 as stated: this event has `live = true`, yet the
`complain_testmode_orders` flag placed in the context is `True`, not
`False` — the code gates the flag on `event.testmode`, not on
`event.live`. -/
theorem live_event_complain_flag_counterexample :
    reqLiveCached.event = some evLiveCached ∧ evLiveCached.live = true ∧
      (_default_context reqLiveCached).ctx.complain_testmode_orders =
        some true := by
  decide

/-- C3 (amended): the suppression gate is the event's test-mode flag, not
its live flag: for every request whose event is in test mode, the
`complain_testmode_orders` flag placed in the context is `False` (or the
key is absent on paths that never set it), regardless of the cached value,
of whether test-mode orders exist, and of the live flag. -/
theorem testmode_event_complain_flag (req : Request) (ev : Event)
    (he : req.event = some ev) (ht : ev.testmode = true) :
    (_default_context req).ctx.complain_testmode_orders = none ∨
    (_default_context req).ctx.complain_testmode_orders = some false := by
  rcases req with ⟨pr, un, pa, sr, db, th, aac, au, st, ss, evo, org, cvo, sp, cs, sk⟩
  simp only [] at he
  subst he
  rcases ev with ⟨slug, pk, live, tm, hto, cc, spks, cfb, tsp, ve, hd⟩
  simp only [] at ht
  subst ht
  unfold _default_context
  cases pr
  · simp
  · cases hsw : strStartsWith pa (sr ++ "common")
    · simp
    · cases au
      · simp
      · cases org
        · cases cfb <;> cases tsp <;> simp
        · rcases cc with _ | c <;> cases live <;> cases hd <;>
            rcases cs with _ | csv <;> by_cases hsp : sp = "" <;>
            cases hpi : pyInt (pyStrip sp) <;>
            simp [hsp, hpi]

/-- An event in test mode with a stale cached `True` flag and existing
test-mode orders. -/
def evTestmode : Event :=
  { live := true, testmode := true, hasTestmodeOrders := true,
    cacheComplain := some true }

/-- A request for `evTestmode` by a user who may view orders. -/
def reqTestmode : Request :=
  { pathResolves := true
    path := "/common/event/x"
    scriptRoot := "/"
    isAuthenticated := true
    event := some evTestmode
    organizerPresent := true
    canViewOrders := true }

/-- Concrete check for the amended C3: a test-mode event gets a `False`
flag even with a cached `True` value. -/
theorem testmode_event_complain_flag_witness :
    (reqTestmode.event = some evTestmode ∧ evTestmode.testmode = true) ∧
    ((_default_context reqTestmode).ctx.complain_testmode_orders = none ∨
      (_default_context reqTestmode).ctx.complain_testmode_orders =
        some false) :=
  ⟨⟨rfl, rfl⟩, testmode_event_complain_flag reqTestmode evTestmode rfl rfl⟩

/-- C9 (implicit): whenever the `complain_testmode_orders` flag in the
returned context is `True`, the requesting user holds the
`can_view_orders` permission for the event — the flag is the conjunction
of the (cached) existence test with the permission check. -/
theorem complain_flag_requires_permission (req : Request)
    (h : (_default_context req).ctx.complain_testmode_orders = some true) :
    req.canViewOrders = true := by
  rcases req with ⟨pr, un, pa, sr, db, th, aac, au, st, ss, evo, org, cvo, sp, cs, sk⟩
  unfold _default_context at h
  cases pr
  · simp at h
  · cases hsw : strStartsWith pa (sr ++ "common") <;> rw [hsw] at h
    · simp at h
    · cases au
      · simp at h
      · rcases evo with _ | ⟨slug, pk, live, tm, hto, cc, spks, cfb, tsp, ve, hd⟩
        · simp at h
        · cases org
          · cases cfb <;> cases tsp <;> simp at h
          · cases tm <;> rcases cc with _ | c <;> cases live <;> cases hd <;>
              rcases cs with _ | csv <;> by_cases hsp : sp = "" <;>
              cases hpi : pyInt (pyStrip sp) <;>
              simp_all

/-- An event not in test mode whose cache records existing test-mode
orders. -/
def evCachedTrue : Event := { testmode := false, cacheComplain := some true }

/-- A request for `evCachedTrue` with the view-orders permission. -/
def reqCachedTrue : Request :=
  { pathResolves := true
    path := "/common/event/x"
    scriptRoot := "/"
    isAuthenticated := true
    event := some evCachedTrue
    organizerPresent := true
    canViewOrders := true }

/-- Concrete check for C9: a request whose context carries a `True` flag
indeed has the permission. -/
theorem complain_flag_requires_permission_witness :
    (_default_context reqCachedTrue).ctx.complain_testmode_orders =
        some true ∧
      reqCachedTrue.canViewOrders = true :=
  ⟨by decide, complain_flag_requires_permission reqCachedTrue (by decide)⟩
